import Mathlib

/-!
Shallow embedding of the vibin repository (src/vibin) in Lean 4:

* `src/vibin/amplifiers/streammagic.py` — the StreamMagic amplifier adapter:
  its inbound state-message handler and its capability-gated commands.
* `src/vibin/device_resolution.py` — role resolution for streamer,
  media server and amplifier devices, plus adapter-class determination.
* `src/vibin/base.py` — the orchestrator's transport verbs.

Network collaborators (the `requests` HTTP library, `upnpclient` device
fetches) are modelled as explicit oracle functions passed to each embedded
routine; Python exceptions are modelled with `Except`, distinguishing
exceptions the source catches from ones it lets propagate.
-/

set_option maxRecDepth 4000

namespace Vibin

/-- A JSON value, as produced by Python's `json.loads`. Numbers are modelled
as rationals (Python distinguishes int/float but the embedded code only
divides and compares, which agree with ℚ). -/
inductive Json where
  | null : Json
  | bool : Bool → Json
  | num : ℚ → Json
  | str : String → Json
  | arr : List Json → Json
  | obj : List (String × Json) → Json

/-- Python exceptions raised by subscripting a parsed JSON value:
`KeyError` for a missing key on a dict, `TypeError` otherwise. -/
inductive PyExc where
  | keyError : String → PyExc
  | typeError : PyExc
  deriving DecidableEq, Repr

/-- `j[k]` on a parsed JSON value: a dict lookup that raises `KeyError` on a
missing key and `TypeError` when `j` is not a dict. -/
def jLookup (j : Json) (k : String) : Except PyExc Json :=
  match j with
  | .obj fields =>
    match fields.find? (fun p => p.1 == k) with
    | some p => .ok p.2
    | none => .error (.keyError k)
  | _ => .error .typeError

/-- Python equality of a parsed JSON value against a string literal. -/
def Json.eqStr : Json → String → Bool
  | .str s, t => s == t
  | _, _ => false

/-- Python truthiness of a parsed JSON value (`if data[...]:`). -/
def Json.truthy : Json → Bool
  | .null => false
  | .bool b => b
  | .num q => decide (q ≠ 0)
  | .str s => !(s == "")
  | .arr xs => !xs.isEmpty
  | .obj fs => !fs.isEmpty

/-- A parsed JSON value used as a number (Python `x / 100`): numbers are
themselves, booleans coerce (`bool` is an `int` subclass), anything else
raises `TypeError`. -/
def Json.asNum : Json → Except PyExc ℚ
  | .num q => .ok q
  | .bool b => .ok (if b then 1 else 0)
  | _ => .error .typeError

/-- Errors escaping an embedded routine: `vibin msg` is a raised
`VibinError`, `uncaught msg` is a Python exception the source does not
catch (`KeyError`/`TypeError`/`SOAPError` left to propagate). -/
inductive RunErr where
  | vibin : String → RunErr
  | uncaught : String → RunErr
  deriving DecidableEq, Repr

/-- Render an uncaught `PyExc` into the `RunErr.uncaught` channel. -/
def PyExc.toUncaught : PyExc → RunErr
  | .keyError k => .uncaught ("KeyError: " ++ k)
  | .typeError => .uncaught "TypeError"

/-! ## AmplifierState (src/vibin/models.py, used by streammagic.py)

`AmplifierState(name=..., actions=..., power=..., mute=..., volume=...,
sources=...)`. `sources` is always `None` in this adapter and is modelled
as an always-`none` `Option Unit`. -/

/-- Canonical amplifier state snapshot (`AmplifierState`). -/
structure AmplifierState where
  name : String
  actions : List String
  power : Option String
  mute : Option String
  volume : Option ℚ
  sources : Option Unit
  deriving DecidableEq, Repr

/-- The snapshot created in `StreamMagic.__init__`: empty capability list,
everything else unknown. -/
def initialAmplifierState (friendly : String) : AmplifierState :=
  { name := friendly
    actions := []
    power := none
    mute := none
    volume := none
    sources := none }

/-! ## StreamMagic._handle_state_message (streammagic.py lines 223-266)

The handler receives the raw websocket message; `json.loads` either
produces a value or raises `JSONDecodeError` (modelled as the `none` case
of the `Option Json` input, which makes the handler return with no state
change). The discriminator check

    if parsed["path"] != "/zone/state" or parsed["type"] != "update":
        pass

evaluates `parsed["path"]` always and — because Python's `or`
short-circuits — `parsed["type"]` only when the path matched; its body is
`pass`, so processing continues regardless of the outcome. The result is
the new snapshot together with the `_on_update("System", state)` callback
invocation, or an uncaught exception. -/

/-- Embeds `StreamMagic._handle_state_message`. `friendly` is the device's
friendly name, `st` the current `_device_state`, `msg` the `json.loads`
result (`none` = `JSONDecodeError`). Returns the new `_device_state` and
the `(message type, state)` argument of the `_on_update` call when one is
made. -/
def handle_state_message (friendly : String) (st : AmplifierState)
    (msg : Option Json) :
    Except RunErr (AmplifierState × Option (String × AmplifierState)) :=
  match msg with
  | none => .ok (st, none)
  | some parsed =>
    match jLookup parsed "path" with
    | .error e => .error e.toUncaught
    | .ok pathJ =>
      -- `parsed["path"] != "/zone/state" or parsed["type"] != "update"`:
      -- short-circuit `or`; the branch body is `pass` either way.
      match (if pathJ.eqStr "/zone/state"
             then (jLookup parsed "type").map (fun _ => ())
             else .ok ()) with
      | .error e => .error e.toUncaught
      | .ok _ =>
        match jLookup parsed "params" with
        | .error e => .error e.toUncaught
        | .ok paramsJ =>
          match jLookup paramsJ "data" with
          | .error e => .error e.toUncaught
          | .ok data =>
            match jLookup data "pre_amp_mode" with
            | .error e => .error e.toUncaught
            | .ok preJ =>
              if preJ.truthy then
                match jLookup data "power" with
                | .error e => .error e.toUncaught
                | .ok powerJ =>
                  match jLookup data "mute" with
                  | .error e => .error e.toUncaught
                  | .ok muteJ =>
                    match jLookup data "volume_percent" with
                    | .error e => .error e.toUncaught
                    | .ok volJ =>
                      match volJ.asNum with
                      | .error e => .error e.toUncaught
                      | .ok vp =>
                        let newSt : AmplifierState :=
                          { name := friendly
                            actions := ["volume", "mute", "volume_up_down"]
                            power := some (if powerJ.truthy then "on" else "off")
                            mute := some (if muteJ.truthy then "on" else "off")
                            volume := some (vp / 100)
                            sources := none }
                        .ok (newSt, some ("System", newSt))
              else
                match jLookup data "cbus" with
                | .error e => .error e.toUncaught
                | .ok cbusJ =>
                  if cbusJ.eqStr "amplifier" || cbusJ.eqStr "receiver" then
                    match jLookup data "power" with
                    | .error e => .error e.toUncaught
                    | .ok powerJ =>
                      let newSt : AmplifierState :=
                        { name := friendly
                          actions := ["volume_up_down"]
                          power := some (if powerJ.truthy then "on" else "off")
                          mute := none
                          volume := none
                          sources := none }
                      .ok (newSt, some ("System", newSt))
                  else
                    match jLookup data "power" with
                    | .error e => .error e.toUncaught
                    | .ok powerJ =>
                      let newSt : AmplifierState :=
                        { name := friendly
                          actions := []
                          power := some (if powerJ.truthy then "on" else "off")
                          mute := none
                          volume := none
                          sources := none }
                      .ok (newSt, some ("System", newSt))

/-! ## StreamMagic capability-gated commands (streammagic.py lines 149-181)

Each mutating command first checks the current capability list
(`_device_state.actions`); when the gate is absent it does nothing.  When
present it issues one HTTP GET via `_send_state_request` and leaves
`_device_state` untouched (state only changes on a later inbound message).
Each embedded command returns the (unchanged) state together with the list
of outbound request URLs it issued. -/

/-- Python's `round`: round half to even (`str(round(volume * 100))`). -/
def pyRound (q : ℚ) : ℤ :=
  let f : ℤ := ⌊q⌋
  let frac : ℚ := q - f
  if frac < 1/2 then f
  else if 1/2 < frac then f + 1
  else if f % 2 = 0 then f else f + 1

/-- The GET URL issued by `StreamMagic._send_state_request`. -/
def send_state_request (host param value : String) : String :=
  "http://" ++ host ++ "/smoip/zone/state?" ++ param ++ "=" ++ value

/-- `StreamMagic.volume` setter: gated on the `"volume"` capability. -/
def volume_set (host : String) (st : AmplifierState) (v : ℚ) :
    AmplifierState × List String :=
  if st.actions.contains "volume" then
    (st, [send_state_request host "volume_percent" (toString (pyRound (v * 100)))])
  else (st, [])

/-- `StreamMagic.volume_up`: gated on the `"volume_up_down"` capability. -/
def volume_up (host : String) (st : AmplifierState) :
    AmplifierState × List String :=
  if st.actions.contains "volume_up_down" then
    (st, [send_state_request host "volume_step_change" "1"])
  else (st, [])

/-- `StreamMagic.volume_down`: gated on the `"volume_up_down"` capability. -/
def volume_down (host : String) (st : AmplifierState) :
    AmplifierState × List String :=
  if st.actions.contains "volume_up_down" then
    (st, [send_state_request host "volume_step_change" "-1"])
  else (st, [])

/-- `StreamMagic.mute` setter: gated on the `"mute"` capability.  `state` is
the requested `MuteState` (`"on"`/`"off"`). -/
def mute_set (host : String) (st : AmplifierState) (state : String) :
    AmplifierState × List String :=
  if st.actions.contains "mute" then
    (st, [send_state_request host "mute" (if state == "on" then "true" else "false")])
  else (st, [])

/-- `StreamMagic.mute_toggle`: gated on the `"mute"` capability. -/
def mute_toggle (host : String) (st : AmplifierState) :
    AmplifierState × List String :=
  if st.actions.contains "mute" then
    (st, [send_state_request host "mute"
      (if st.mute == some "on" then "false" else "true")])
  else (st, [])

/-! ## Concrete state messages (spec section 8 test vectors) -/

/-- `params.data` of the pre-amp-mode test message. -/
def stateDataPre : Json :=
  .obj [("pre_amp_mode", .bool true), ("power", .bool true),
        ("mute", .bool false), ("volume_percent", .num 42)]

/-- The accepted pre-amp-mode message
`{pre_amp_mode: true, power: true, mute: false, volume_percent: 42}`. -/
def msgPreamp : Json :=
  .obj [("path", .str "/zone/state"), ("type", .str "update"),
        ("params", .obj [("data", stateDataPre)])]

/-- The accepted control-bus message
`{pre_amp_mode: false, cbus: "amplifier", power: false}`. -/
def msgCbus : Json :=
  .obj [("path", .str "/zone/state"), ("type", .str "update"),
        ("params", .obj [("data",
          .obj [("pre_amp_mode", .bool false), ("cbus", .str "amplifier"),
                ("power", .bool false)])])]

/-- A message whose path discriminator does not match `/zone/state` but
whose payload is otherwise complete. -/
def msgBadPath : Json :=
  .obj [("path", .str "/some/other/path"), ("type", .str "update"),
        ("params", .obj [("data", stateDataPre)])]

/-- Canonical state produced from the pre-amp-mode test message. -/
def preampSnapshot (friendly : String) : AmplifierState :=
  { name := friendly
    actions := ["volume", "mute", "volume_up_down"]
    power := some "on"
    mute := some "off"
    volume := some (42 / 100)
    sources := none }

/-- Canonical state produced from the control-bus test message. -/
def cbusSnapshot (friendly : String) : AmplifierState :=
  { name := friendly
    actions := ["volume_up_down"]
    power := some "off"
    mute := none
    volume := none
    sources := none }

end Vibin

namespace Vibin

/-! ## Device resolution (src/vibin/device_resolution.py)

A `Device` is the immutable UPnP device descriptor produced by one
discovery pass; the cached discovery snapshot is a `List Device` in
discovery order.  The network collaborators are explicit oracles:

* `probe : String → ProbeResult` — `requests.get` of the fixed vendor path
  `http://<arg>:80/smoip/system/upnp`;
* `fetch : String → Except Unit Device` — `upnpclient.Device(url)`; the
  error case is a raised `requests.RequestException`;
* `hostOf : String → String` — `urlparse(location).hostname` (external
  `urllib` behaviour, used only by media-server resolution).

Python compares devices with `!=`, which for `upnpclient.Device` is object
identity; descriptors from one discovery pass are identified by their
field contents here. -/

/-- UPnP device descriptor — the `upnpclient.Device` fields the source
reads. -/
structure Device where
  model_name : String
  friendly_name : String
  manufacturer : String
  device_type : String
  location : String
  udn : String
  deriving DecidableEq, Repr

/-- Char-list prefix test used to embed Python substring containment. -/
def listPrefixAt : List Char → List Char → Bool
  | [], _ => true
  | _ :: _, [] => false
  | a :: as, b :: bs => a == b && listPrefixAt as bs

/-- Python's `needle in hay` substring containment on strings
(e.g. `"MediaRenderer" in device.device_type`). -/
def strContains (hay needle : String) : Bool :=
  (List.range (hay.data.length + 1)).any fun i =>
    listPrefixAt needle.data (hay.data.drop i)

/-- Outcome of `requests.get` on the vendor probe path: a raised
`requests.Timeout`, another raised `requests.RequestException`, or an HTTP
response with its status code and the result of `.json()`
(`none` = `json.decoder.JSONDecodeError`). -/
inductive ProbeResult where
  | timeout : ProbeResult
  | connError : ProbeResult
  | response : Nat → Option Json → ProbeResult

/-- Classification of a hint string by `urlparse`: `url` when
`urlparse(hint).hostname` is not `None` (carrying the raw hint string),
`name` otherwise (a bare hostname or UPnP friendly name); `none` models a
`None` or empty hint. -/
inductive Hint where
  | none : Hint
  | url : String → Hint
  | name : String → Hint

/-- A Python list comprehension `[x for x in items if p(x)]` whose
predicate may raise: every element is evaluated in order (the whole list
is built before any `[0]` subscript), and the first raising element aborts
the comprehension. -/
def filterJsonE (p : Json → Except RunErr Bool) : List Json → Except RunErr (List Json)
  | [] => .ok []
  | x :: xs => do
    let keep ← p x
    let rest ← filterJsonE p xs
    pure (if keep then x :: rest else rest)

/-- Embeds `_determine_streamer_device` (device_resolution.py lines
48-171).  Returns `some device` on success, `none` when the Python
function falls off the end (vendor probe answered with a non-200 status),
`RunErr.vibin` for a raised `VibinError` and `RunErr.uncaught` for a
Python exception no handler catches.  Exception-message interpolations of
dynamic values are abbreviated where the source interpolates a whole
exception object. -/
def determine_streamer_device
    (probe : String → ProbeResult) (fetch : String → Except Unit Device)
    (devices : List Device) (hint : Hint) : Except RunErr (Option Device) :=
  match hint with
  | .none =>
    match devices.filter (fun d =>
        d.manufacturer == "Cambridge Audio"
          && strContains d.device_type "MediaRenderer") with
    | [] => .error (.vibin "Could not find a Cambridge Audio MediaRenderer UPnP device")
    | d :: _ => .ok (some d)
  | .url u =>
    match fetch u with
    | .ok d => .ok (some d)
    | .error _ =>
      .error (.vibin ("Could not find a UPnP device at the provided streamer URL: " ++ u))
  | .name s =>
    match probe s with
    | .timeout => .error (.vibin ("Timed out attempting to connect to " ++ s))
    | .connError =>
      -- It was not a Cambridge Audio host name; fall through to the UPnP
      -- friendly-name search over the discovery snapshot.
      match devices.filter (fun d => d.friendly_name == s) with
      | [] =>
        .error (.vibin ("Could not find a UPnP device with friendly name \x27" ++ s ++ "\x27"))
      | d :: _ => .ok (some d)
    | .response status body =>
      if status == 200 then
        match body with
        | Option.none =>
          .error (.vibin ("A host was found at " ++ s
            ++ ", but it does not appear to be a Cambridge Audio device."))
        | some j =>
          match jLookup j "data" with
          | .error (.keyError _) =>
            .error (.vibin ("A host was found at " ++ s
              ++ ", but it does not appear to be a Cambridge Audio device."))
          | .error .typeError => .error (.uncaught "TypeError")
          | .ok dataJ =>
            match jLookup dataJ "devices" with
            | .error (.keyError _) =>
              .error (.vibin ("A host was found at " ++ s
                ++ ", but it does not appear to be a Cambridge Audio device."))
            | .error .typeError => .error (.uncaught "TypeError")
            | .ok devsJ =>
              match devsJ with
              | .arr items =>
                match filterJsonE (fun item =>
                    match jLookup item "manufacturer" with
                    | .ok m => .ok (m.eqStr "Cambridge Audio")
                    | .error (.keyError _) =>
                      .error (.vibin ("A host was found at " ++ s
                        ++ ", but it does not appear to be a Cambridge Audio device."))
                    | .error .typeError => .error (.uncaught "TypeError")) items with
                | .error e => .error e
                | .ok [] =>
                  .error (.vibin ("Cambridge Audio device found at " ++ s
                    ++ ", but it did oddly not specify any devices manufactured by Cambridge Audio"))
                | .ok (streamer :: _) =>
                  match jLookup streamer "description_url" with
                  | .error (.keyError _) =>
                    .error (.vibin ("Cambridge Audio device found at " ++ s
                      ++ ", but it did not have a description_url"))
                  | .error .typeError => .error (.uncaught "TypeError")
                  | .ok (.str u) =>
                    match fetch u with
                    | .ok d => .ok (some d)
                    | .error _ =>
                      .error (.vibin ("Cambridge Audio device found at " ++ s
                        ++ ", but its description_url was unsuccessful: " ++ u))
                  | .ok _ => .error (.uncaught "TypeError")
              | _ => .error (.uncaught "TypeError")
      else
        -- status_code != 200: the source has no else branch, so the
        -- function falls off the end and returns None.
        .ok Option.none

/-- Embeds `_determine_media_server_device` (device_resolution.py lines
174-280).  In the no-hint Cambridge branch every `RequestException`,
`JSONDecodeError`, `KeyError` or `IndexError` is caught and re-raised as a
`VibinError` interpolating the exception (abbreviated here); only the
`IndexError` of the `[0]` subscript is caught by the inner handler, which
logs a warning and returns `None`. -/
def determine_media_server_device
    (probe : String → ProbeResult) (fetch : String → Except Unit Device)
    (hostOf : String → String)
    (devices : List Device) (streamer_device : Device) (hint : Hint) :
    Except RunErr (Option Device) :=
  match hint with
  | .none =>
    if streamer_device.manufacturer == "Cambridge Audio" then
      match probe (hostOf streamer_device.location) with
      | .timeout =>
        .error (.vibin "Could not determine media server from Cambridge Audio device: request exception")
      | .connError =>
        .error (.vibin "Could not determine media server from Cambridge Audio device: request exception")
      | .response _ body =>
        -- The status code is never checked in this branch.
        match body with
        | Option.none =>
          .error (.vibin "Could not determine media server from Cambridge Audio device: JSON decode error")
        | some j =>
          match jLookup j "data" with
          | .error (.keyError _) =>
            .error (.vibin "Could not determine media server from Cambridge Audio device: KeyError")
          | .error .typeError => .error (.uncaught "TypeError")
          | .ok dataJ =>
            match jLookup dataJ "devices" with
            | .error (.keyError _) =>
              .error (.vibin "Could not determine media server from Cambridge Audio device: KeyError")
            | .error .typeError => .error (.uncaught "TypeError")
            | .ok devsJ =>
              match devsJ with
              | .arr items =>
                match filterJsonE (fun item =>
                    match jLookup item "description_url" with
                    | .error (.keyError _) =>
                      .error (.vibin "Could not determine media server from Cambridge Audio device: KeyError")
                    | .error .typeError => .error (.uncaught "TypeError")
                    | .ok (.str u) =>
                      match fetch u with
                      | .ok d => .ok (strContains d.device_type "MediaServer")
                      | .error _ =>
                        .error (.vibin "Could not determine media server from Cambridge Audio device: request exception")
                    | .ok _ => .error (.uncaught "TypeError")) items with
                | .error e => .error e
                | .ok [] =>
                  -- IndexError from the [0] subscript: warning, return None.
                  .ok Option.none
                | .ok (ms :: _) =>
                  match jLookup ms "description_url" with
                  | .error (.keyError _) =>
                    .error (.vibin "Could not determine media server from Cambridge Audio device: KeyError")
                  | .error .typeError => .error (.uncaught "TypeError")
                  | .ok (.str u) =>
                    match fetch u with
                    | .ok d => .ok (some d)
                    | .error _ =>
                      .error (.vibin "Could not determine media server from Cambridge Audio device: request exception")
                  | .ok _ => .error (.uncaught "TypeError")
              | _ => .error (.uncaught "TypeError")
    else
      match devices.filter (fun d => strContains d.device_type "MediaServer") with
      | [] =>
        -- "Could not find a MediaServer UPnP device": warning, return None.
        .ok Option.none
      | d :: _ => .ok (some d)
  | .url u =>
    match fetch u with
    | .ok d => .ok (some d)
    | .error _ =>
      .error (.vibin ("Could not find a UPnP device at the provided media server URL: " ++ u))
  | .name s =>
    match devices.filter (fun d => d.friendly_name == s) with
    | [] =>
      .error (.vibin ("Could not find a UPnP device with friendly name \x27" ++ s ++ "\x27"))
    | d :: _ => .ok (some d)

/-- Embeds `_determine_amplifier_device` (device_resolution.py lines
283-361).  With no hint: filter the snapshot to MediaRenderer devices; a
single renderer is returned even when it is the streamer's device;
otherwise the first renderer differing from the streamer's device is
returned, and the `IndexError` when there is none is caught and yields
`None` (amplifiers are optional). -/
def determine_amplifier_device
    (fetch : String → Except Unit Device)
    (devices : List Device) (streamer_device : Device) (hint : Hint) :
    Except RunErr (Option Device) :=
  match hint with
  | .none =>
    match devices.filter (fun d => strContains d.device_type "MediaRenderer") with
    | [d] => .ok (some d)
    | rs =>
      match rs.filter (fun d => decide (d ≠ streamer_device)) with
      | [] => .ok Option.none
      | d :: _ => .ok (some d)
  | .url u =>
    match fetch u with
    | .ok d => .ok (some d)
    | .error _ =>
      .error (.vibin ("Could not find a UPnP device at the provided amplifier URL: " ++ u))
  | .name s =>
    match devices.filter (fun d => d.friendly_name == s) with
    | [] =>
      .error (.vibin ("Could not find a UPnP device with friendly name \x27" ++ s ++ "\x27"))
    | d :: _ => .ok (some d)

/-! ## Adapter class determination (device_resolution.py lines 395-528)

The known-implementation list is produced by `inspect.getmembers` over the
role's module (reflection, an external mechanism) and is a parameter
here; `overrides` is the module's `model_to_streamer` /
`model_to_amplifier` table, merged with `dict.update` after automatic
registration. -/

/-- A registered adapter implementation: Python class `__name__` and its
declared `model_name` attribute. -/
structure AdapterClass where
  className : String
  model_name : String
  deriving DecidableEq, Repr

/-- Python dict insertion `d[k] = v`: overwrite the existing key in place,
else append. -/
def dictInsert (m : List (String × AdapterClass)) (k : String) (v : AdapterClass) :
    List (String × AdapterClass) :=
  if m.any (fun p => p.1 == k) then
    m.map (fun p => if p.1 == k then (k, v) else p)
  else m ++ [(k, v)]

/-- Python dict lookup `d[k]` returning `none` for `KeyError`. -/
def dictFind (m : List (String × AdapterClass)) (k : String) : Option AdapterClass :=
  (m.find? (fun p => p.1 == k)).map (fun p => p.2)

/-- The model→implementation dict: automatic registration of every known
implementation keyed by its `model_name`, then `.update(overrides)` — the
override table always wins. -/
def buildByModel (known : List AdapterClass)
    (overrides : List (String × AdapterClass)) : List (String × AdapterClass) :=
  overrides.foldl (fun m p => dictInsert m p.1 p.2)
    (known.foldl (fun m c => dictInsert m c.model_name c) [])

/-- Embeds `determine_streamer_class`: an explicit `streamer_type` selects
by class name from the known-implementation list (bypassing the model
dict); `None` selects by the bound device's `model_name` from the merged
dict, with a `KeyError` re-raised as `VibinError`. -/
def determine_streamer_class (known : List AdapterClass)
    (overrides : List (String × AdapterClass)) (streamer_device : Device)
    (streamer_type : Option String) : Except RunErr AdapterClass :=
  match streamer_type with
  | Option.none =>
    match dictFind (buildByModel known overrides) streamer_device.model_name with
    | some c => .ok c
    | Option.none =>
      .error (.vibin ("Could not find Vibin implementation for streamer model \x27"
        ++ streamer_device.model_name ++ "\x27"))
  | some t =>
    match known.find? (fun c => c.className == t) with
    | some c => .ok c
    | Option.none =>
      .error (.vibin ("Could not find Vibin implementation for requested streamer type: " ++ t))

/-- Embeds `determine_amplifier_class`: same shape as
`determine_streamer_class` over the amplifier registry. -/
def determine_amplifier_class (known : List AdapterClass)
    (overrides : List (String × AdapterClass)) (amplifier_device : Device)
    (amplifier_type : Option String) : Except RunErr AdapterClass :=
  match amplifier_type with
  | Option.none =>
    match dictFind (buildByModel known overrides) amplifier_device.model_name with
    | some c => .ok c
    | Option.none =>
      .error (.vibin ("Could not find Vibin implementation for amplifier model \x27"
        ++ amplifier_device.model_name ++ "\x27"))
  | some t =>
    match known.find? (fun c => c.className == t) with
    | some c => .ok c
    | Option.none =>
      .error (.vibin ("Could not find Vibin implementation for requested amplifier type: " ++ t))

/-! ## Orchestrator transport verbs (src/vibin/base.py lines 191-246)

Each transport method calls the streamer and — except `seek` — wraps a
raised `upnpclient.soap.SOAPError` (whose `args` are `(code, err)`) in a
`VibinError` naming the attempted operation.  The streamer collaborator is
modelled by the outcome of each call. -/

/-- Outcome of one underlying streamer transport call: success, or a
raised `SOAPError` with `args = (code, err)`. -/
inductive StreamerOutcome where
  | ok : StreamerOutcome
  | soapError : Int → String → StreamerOutcome
  deriving DecidableEq, Repr

/-- The streamer collaborator: what each transport call raises or
returns. -/
structure StreamerCalls where
  pause : StreamerOutcome
  play : StreamerOutcome
  next_track : StreamerOutcome
  previous_track : StreamerOutcome
  rpt : Option Bool → StreamerOutcome
  shuffle : Option Bool → StreamerOutcome
  seek : String → StreamerOutcome

/-- Outcome observed by a caller of the orchestrator: success, a raised
`VibinError`, or a vendor `SOAPError` that escaped unwrapped. -/
inductive VibinOutcome where
  | ok : VibinOutcome
  | vibinError : String → VibinOutcome
  | uncaughtSoap : Int → String → VibinOutcome
  deriving DecidableEq, Repr

/-- `Vibin.pause`: wraps a `SOAPError` as
`VibinError(f"Unable to perform Pause transition: [{code}] {err}")`. -/
def vibin_pause (s : StreamerCalls) : VibinOutcome :=
  match s.pause with
  | .ok => .ok
  | .soapError code err =>
    .vibinError ("Unable to perform Pause transition: [" ++ toString code ++ "] " ++ err)

/-- `Vibin.play`. -/
def vibin_play (s : StreamerCalls) : VibinOutcome :=
  match s.play with
  | .ok => .ok
  | .soapError code err =>
    .vibinError ("Unable to perform Play transition: [" ++ toString code ++ "] " ++ err)

/-- `Vibin.next_track`. -/
def vibin_next_track (s : StreamerCalls) : VibinOutcome :=
  match s.next_track with
  | .ok => .ok
  | .soapError code err =>
    .vibinError ("Unable to perform Next transition: [" ++ toString code ++ "] " ++ err)

/-- `Vibin.previous_track`. -/
def vibin_previous_track (s : StreamerCalls) : VibinOutcome :=
  match s.previous_track with
  | .ok => .ok
  | .soapError code err =>
    .vibinError ("Unable to perform Previous transition: [" ++ toString code ++ "] " ++ err)

/-- `Vibin.repeat`. -/
def vibin_repeat (s : StreamerCalls) (enabled : Option Bool) : VibinOutcome :=
  match s.rpt enabled with
  | .ok => .ok
  | .soapError code err =>
    .vibinError ("Unable to interact with Repeat setting: [" ++ toString code ++ "] " ++ err)

/-- `Vibin.shuffle`. -/
def vibin_shuffle (s : StreamerCalls) (enabled : Option Bool) : VibinOutcome :=
  match s.shuffle enabled with
  | .ok => .ok
  | .soapError code err =>
    .vibinError ("Unable to interact with Shuffle setting: [" ++ toString code ++ "] " ++ err)

/-- `Vibin.seek`: `def seek(self, target): self.streamer.seek(target)` —
there is no try/except, so a `SOAPError` escapes to the caller
unwrapped. -/
def vibin_seek (s : StreamerCalls) (target : String) : VibinOutcome :=
  match s.seek target with
  | .ok => .ok
  | .soapError code err => .uncaughtSoap code err

/-! ## Concrete fixtures used by witnesses and counterexamples -/

/-- Probe oracle: every host raises a (non-timeout)
`requests.RequestException`. -/
def probeConn : String → ProbeResult := fun _ => ProbeResult.connError

/-- Probe oracle: every host raises `requests.Timeout`. -/
def probeTO : String → ProbeResult := fun _ => ProbeResult.timeout

/-- Probe oracle: every host answers 404. -/
def probe404 : String → ProbeResult := fun _ => ProbeResult.response 404 Option.none

/-- Probe oracle: every host answers 200 with a non-JSON body. -/
def probeBadJson : String → ProbeResult := fun _ => ProbeResult.response 200 Option.none

/-- Fetch oracle: every description URL raises `requests.RequestException`. -/
def fetchNone : String → Except Unit Device := fun _ => .error ()

/-- Hostname extraction oracle: the identity (locations stand for their
own hostnames in fixtures). -/
def hostId : String → String := fun s => s

/-- A Cambridge Audio renderer named "Living Room". -/
def devA : Device :=
  ⟨"StreamMagic", "Living Room", "Cambridge Audio", "MediaRenderer",
   "http://10.0.0.2/desc.xml", "uuid:aaa"⟩

/-- A Cambridge Audio renderer whose friendly name is "myhost". -/
def devB : Device :=
  ⟨"StreamMagic", "myhost", "Cambridge Audio", "MediaRenderer",
   "http://10.0.0.3/desc.xml", "uuid:bbb"⟩

/-- A second renderer, distinct from `devA`/`devB`. -/
def rendererTwo : Device :=
  ⟨"AXR100", "Amp Two", "Cambridge Audio", "MediaRenderer",
   "http://10.0.0.4/desc.xml", "uuid:ccc"⟩

/-- A media server device (not a renderer). -/
def serverOne : Device :=
  ⟨"Asset UPnP", "NAS", "Illustrate", "MediaServer",
   "http://10.0.0.5/desc.xml", "uuid:ddd"⟩

/-- A streamer collaborator whose every transport call raises
`SOAPError(701, "Transition not available")`. -/
def streamerAllFault : StreamerCalls :=
  { pause := .soapError 701 "Transition not available"
    play := .soapError 701 "Transition not available"
    next_track := .soapError 701 "Transition not available"
    previous_track := .soapError 701 "Transition not available"
    rpt := fun _ => .soapError 701 "Transition not available"
    shuffle := fun _ => .soapError 701 "Transition not available"
    seek := fun _ => .soapError 701 "Transition not available" }

/-- C2 (counterexample): a transport-layer fault raised by the underlying
`seek` call escapes the orchestrator unwrapped — the caller observes the
vendor `SOAPError`, never a `VibinError` — refuting the claim that every
transport verb re-raises a uniform error. -/
theorem c2_counterexample :
    vibin_seek streamerAllFault "0:01:00"
      = VibinOutcome.uncaughtSoap 701 "Transition not available"
    ∧ ∀ msg, vibin_seek streamerAllFault "0:01:00" ≠ VibinOutcome.vibinError msg :=
  ⟨rfl, fun _ h => VibinOutcome.noConfusion h⟩

/-- C2 (amended): for play, pause, next, previous, repeat and shuffle a
`SOAPError` from the streamer is wrapped in a `VibinError` naming the
attempted operation and carrying the fault's code and message; `seek`
alone has no handler and lets the vendor fault escape unwrapped. -/
theorem c2_amended (s : StreamerCalls) (code : Int) (err : String) :
    (s.pause = .soapError code err → vibin_pause s
      = .vibinError ("Unable to perform Pause transition: [" ++ toString code ++ "] " ++ err))
    ∧ (s.play = .soapError code err → vibin_play s
      = .vibinError ("Unable to perform Play transition: [" ++ toString code ++ "] " ++ err))
    ∧ (s.next_track = .soapError code err → vibin_next_track s
      = .vibinError ("Unable to perform Next transition: [" ++ toString code ++ "] " ++ err))
    ∧ (s.previous_track = .soapError code err → vibin_previous_track s
      = .vibinError ("Unable to perform Previous transition: [" ++ toString code ++ "] " ++ err))
    ∧ (∀ en, s.rpt en = .soapError code err → vibin_repeat s en
      = .vibinError ("Unable to interact with Repeat setting: [" ++ toString code ++ "] " ++ err))
    ∧ (∀ en, s.shuffle en = .soapError code err → vibin_shuffle s en
      = .vibinError ("Unable to interact with Shuffle setting: [" ++ toString code ++ "] " ++ err))
    ∧ (∀ t, s.seek t = .soapError code err → vibin_seek s t
      = .uncaughtSoap code err) := by
  refine ⟨fun h => ?_, fun h => ?_, fun h => ?_, fun h => ?_,
    fun en h => ?_, fun en h => ?_, fun t h => ?_⟩ <;>
    simp [vibin_pause, vibin_play, vibin_next_track, vibin_previous_track,
      vibin_repeat, vibin_shuffle, vibin_seek, h]

/-- Witness for C2 (amended) on the all-faulting streamer. -/
theorem c2_amended_witness :
    vibin_pause streamerAllFault
      = .vibinError ("Unable to perform Pause transition: ["
          ++ toString (701 : Int) ++ "] " ++ "Transition not available")
    ∧ vibin_seek streamerAllFault "0:00:10"
      = .uncaughtSoap 701 "Transition not available" := by
  have h := c2_amended streamerAllFault 701 "Transition not available"
  exact ⟨h.1 rfl, h.2.2.2.2.2.2 "0:00:10" rfl⟩

/-- C3 (counterexample): with a snapshot holding only a device named
"Living Room", a friendly-name hint "Office" makes media-server and
amplifier resolution raise a `VibinError` — they do not degrade to "role
absent". -/
theorem c3_counterexample :
    determine_media_server_device probeConn fetchNone hostId [devA] devA (.name "Office")
      = .error (.vibin "Could not find a UPnP device with friendly name \x27Office\x27")
    ∧ determine_amplifier_device fetchNone [devA] devA (.name "Office")
      = .error (.vibin "Could not find a UPnP device with friendly name \x27Office\x27") :=
  ⟨rfl, rfl⟩

/-- C3 (amended): a friendly-name hint matching no device in the snapshot
makes resolution fail with a `VibinError` for all three roles (for the
streamer the friendly-name step is reached when the vendor probe raises a
non-timeout request error); degradation to "role absent" happens only on
the no-hint paths. -/
theorem c3_amended (probe : String → ProbeResult)
    (fetch : String → Except Unit Device) (hostOf : String → String)
    (devices : List Device) (streamer_device : Device) (s : String)
    (hnm : devices.filter (fun d => d.friendly_name == s) = [])
    (hp : probe s = ProbeResult.connError) :
    determine_streamer_device probe fetch devices (.name s)
      = .error (.vibin ("Could not find a UPnP device with friendly name \x27" ++ s ++ "\x27"))
    ∧ determine_media_server_device probe fetch hostOf devices streamer_device (.name s)
      = .error (.vibin ("Could not find a UPnP device with friendly name \x27" ++ s ++ "\x27"))
    ∧ determine_amplifier_device fetch devices streamer_device (.name s)
      = .error (.vibin ("Could not find a UPnP device with friendly name \x27" ++ s ++ "\x27")) := by
  refine ⟨?_, ?_, ?_⟩ <;>
    simp only [determine_streamer_device, determine_media_server_device,
      determine_amplifier_device, hp, hnm]

/-- Witness for C3 (amended): empty snapshot, hint "Office". -/
theorem c3_amended_witness :
    determine_streamer_device probeConn fetchNone [] (.name "Office")
      = .error (.vibin "Could not find a UPnP device with friendly name \x27Office\x27")
    ∧ determine_amplifier_device fetchNone [] devA (.name "Office")
      = .error (.vibin "Could not find a UPnP device with friendly name \x27Office\x27") := by
  have h := c3_amended probeConn fetchNone hostId [] devA "Office" rfl rfl
  exact ⟨h.1, h.2.2⟩

/-- C4 (counterexample): a timeout of the vendor probe does not fall
through to the friendly-name step — it raises a `VibinError` immediately,
even though the snapshot holds a device whose friendly name matches the
hint. -/
theorem c4_counterexample :
    determine_streamer_device probeTO fetchNone [devB] (.name "myhost")
      = .error (.vibin "Timed out attempting to connect to myhost")
    ∧ determine_streamer_device probeTO fetchNone [devB] (.name "myhost")
      ≠ .ok (some devB) :=
  ⟨rfl, fun h => Except.noConfusion h⟩

/-- C4 (amended): for a bare host/name hint, only a non-timeout
connection-level request failure falls through to the friendly-name match
over the discovery snapshot; a probe timeout raises a `VibinError`, a 200
response with a non-JSON body raises a `VibinError`, and a non-200
response makes resolution return no device (the source falls off the end)
without reaching the friendly-name step. -/
theorem c4_amended (probe : String → ProbeResult)
    (fetch : String → Except Unit Device) (devices : List Device) (s : String) :
    (probe s = ProbeResult.connError →
      determine_streamer_device probe fetch devices (.name s)
        = match devices.filter (fun d => d.friendly_name == s) with
          | [] => .error (.vibin ("Could not find a UPnP device with friendly name \x27" ++ s ++ "\x27"))
          | d :: _ => .ok (some d))
    ∧ (probe s = ProbeResult.timeout →
      determine_streamer_device probe fetch devices (.name s)
        = .error (.vibin ("Timed out attempting to connect to " ++ s)))
    ∧ (∀ status, probe s = ProbeResult.response status Option.none → status ≠ 200 →
      determine_streamer_device probe fetch devices (.name s) = .ok Option.none)
    ∧ (probe s = ProbeResult.response 200 Option.none →
      determine_streamer_device probe fetch devices (.name s)
        = .error (.vibin ("A host was found at " ++ s
            ++ ", but it does not appear to be a Cambridge Audio device."))) := by
  refine ⟨fun h => ?_, fun h => ?_, fun status h hne => ?_, fun h => ?_⟩
  · simp only [determine_streamer_device, h]
  · simp only [determine_streamer_device, h]
  · have hb : (status == 200) = false := beq_eq_false_iff_ne.mpr hne
    simp only [determine_streamer_device, h, hb, Bool.false_eq_true, if_false]
  · simp only [determine_streamer_device, h]
    rfl

/-- Witness for C4 (amended) under the four probe fixtures. -/
theorem c4_amended_witness :
    determine_streamer_device probeConn fetchNone [] (.name "host1")
      = .error (.vibin "Could not find a UPnP device with friendly name \x27host1\x27")
    ∧ determine_streamer_device probeTO fetchNone [] (.name "host1")
      = .error (.vibin "Timed out attempting to connect to host1")
    ∧ determine_streamer_device probe404 fetchNone [] (.name "host1")
      = .ok Option.none
    ∧ determine_streamer_device probeBadJson fetchNone [] (.name "host1")
      = .error (.vibin "A host was found at host1, but it does not appear to be a Cambridge Audio device.") := by
  refine ⟨(c4_amended probeConn fetchNone [] "host1").1 rfl,
    (c4_amended probeTO fetchNone [] "host1").2.1 rfl,
    (c4_amended probe404 fetchNone [] "host1").2.2.1 404 rfl (by decide),
    (c4_amended probeBadJson fetchNone [] "host1").2.2.2 rfl⟩

/-- C5: an accepted message reporting `pre_amp_mode: true, power: true,
mute: false, volume_percent: 42` yields capability set
{volume, mute, volume-step}, power "on", mute "off", volume 0.42
(the vendor percentage divided by 100); an accepted message reporting
`pre_amp_mode: false, cbus: "amplifier", power: false` yields capability
set {volume-step}, power "off", and mute and volume absent.  Both replace
the whole snapshot (whatever the prior state was) and invoke the update
callback with ("System", new snapshot). -/
theorem c5_accepted_message_translation (friendly : String) (st : AmplifierState) :
    handle_state_message friendly st (some msgPreamp)
      = .ok (preampSnapshot friendly, some ("System", preampSnapshot friendly))
    ∧ handle_state_message friendly st (some msgCbus)
      = .ok (cbusSnapshot friendly, some ("System", cbusSnapshot friendly)) :=
  ⟨rfl, rfl⟩

/-- C1 (code bug evaluation): a JSON message whose path discriminator is
`/some/other/path` (not `/zone/state`) is nonetheless processed: the
snapshot is replaced with a state different from the previous one and the
update callback is invoked — the `pass` body of the discriminator check
drops nothing. -/
theorem c1_mismatched_discriminator_still_processed :
    handle_state_message "Amp" (initialAmplifierState "Amp") (some msgBadPath)
      = .ok (preampSnapshot "Amp", some ("System", preampSnapshot "Amp"))
    ∧ preampSnapshot "Amp" ≠ initialAmplifierState "Amp" := by
  exact ⟨rfl, by decide⟩

/-- C6: every mutating command is a silent no-op when its gating capability
is absent from the current capability set: no outbound request, no state
change, no error. -/
theorem c6_capability_gating (host : String) (st : AmplifierState) :
    (st.actions.contains "volume" = false →
      ∀ v, volume_set host st v = (st, []))
    ∧ (st.actions.contains "volume_up_down" = false →
      volume_up host st = (st, []) ∧ volume_down host st = (st, []))
    ∧ (st.actions.contains "mute" = false →
      (∀ m, mute_set host st m = (st, [])) ∧ mute_toggle host st = (st, [])) := by
  refine ⟨fun h v => ?_, fun h => ⟨?_, ?_⟩, fun h => ⟨fun m => ?_, ?_⟩⟩ <;>
    · simp only [volume_set, volume_up, volume_down, mute_set, mute_toggle]
      rw [h]
      rfl

/-- Witness for C6 at the initial (empty-capability) state. -/
theorem c6_capability_gating_witness :
    volume_set "host" (initialAmplifierState "Amp") (1/2)
      = (initialAmplifierState "Amp", [])
    ∧ volume_up "host" (initialAmplifierState "Amp")
      = (initialAmplifierState "Amp", [])
    ∧ mute_toggle "host" (initialAmplifierState "Amp")
      = (initialAmplifierState "Amp", []) :=
  ⟨(c6_capability_gating "host" (initialAmplifierState "Amp")).1 rfl _,
   ((c6_capability_gating "host" (initialAmplifierState "Amp")).2.1 rfl).1,
   ((c6_capability_gating "host" (initialAmplifierState "Amp")).2.2 rfl).2⟩

/-- C7: amplifier resolution with no hint filters the snapshot to
MediaRenderer devices; a single renderer is returned even when it is the
streamer's device; with more than one, the first renderer differing from
the streamer's device is returned; with none, resolution returns "no
amplifier" without failing. -/
theorem c7_amplifier_auto_resolution (fetch : String → Except Unit Device)
    (devices : List Device) (streamer_device : Device) :
    (∀ d, devices.filter (fun x => strContains x.device_type "MediaRenderer") = [d] →
      determine_amplifier_device fetch devices streamer_device .none = .ok (some d))
    ∧ (∀ d rest,
        1 < (devices.filter (fun x => strContains x.device_type "MediaRenderer")).length →
        (devices.filter (fun x => strContains x.device_type "MediaRenderer")).filter
          (fun x => decide (x ≠ streamer_device)) = d :: rest →
        determine_amplifier_device fetch devices streamer_device .none = .ok (some d))
    ∧ (devices.filter (fun x => strContains x.device_type "MediaRenderer") = [] →
      determine_amplifier_device fetch devices streamer_device .none = .ok Option.none) := by
  refine ⟨fun d h => ?_, fun d rest hlen hfil => ?_, fun h => ?_⟩
  · simp only [determine_amplifier_device, h]
  · rcases hrs : devices.filter (fun x => strContains x.device_type "MediaRenderer") with
      _ | ⟨a, _ | ⟨b, tl⟩⟩
    · rw [hrs] at hfil; simp at hfil
    · rw [hrs] at hlen; simp at hlen
    · rw [hrs] at hfil
      simp only [determine_amplifier_device, hrs, hfil]
  · simp only [determine_amplifier_device, h, List.filter_nil]

/-- Witness for C7 at one-renderer, two-renderer and zero-renderer
snapshots (streamer's device is `devA`). -/
theorem c7_amplifier_auto_resolution_witness :
    determine_amplifier_device fetchNone [devA, serverOne] devA .none = .ok (some devA)
    ∧ determine_amplifier_device fetchNone [devA, rendererTwo] devA .none
      = .ok (some rendererTwo)
    ∧ determine_amplifier_device fetchNone [serverOne] devA .none = .ok Option.none :=
  ⟨(c7_amplifier_auto_resolution fetchNone [devA, serverOne] devA).1 devA (by decide),
   (c7_amplifier_auto_resolution fetchNone [devA, rendererTwo] devA).2.1 rendererTwo []
     (by decide) (by decide),
   (c7_amplifier_auto_resolution fetchNone [serverOne] devA).2.2 (by decide)⟩

/-- C10: when the snapshot holds more than one renderer-type device and
every one of them equals the streamer's device, amplifier resolution with
no hint returns "no amplifier" rather than the streamer's device or an
error. -/
theorem c10_all_renderers_equal_streamer (fetch : String → Except Unit Device)
    (devices : List Device) (streamer_device : Device)
    (hlen : 1 < (devices.filter (fun x => strContains x.device_type "MediaRenderer")).length)
    (hall : ∀ d ∈ devices.filter (fun x => strContains x.device_type "MediaRenderer"),
      d = streamer_device) :
    determine_amplifier_device fetch devices streamer_device .none = .ok Option.none := by
  have hfil : (devices.filter (fun x => strContains x.device_type "MediaRenderer")).filter
      (fun x => decide (x ≠ streamer_device)) = [] :=
    List.filter_eq_nil_iff.mpr (fun a ha => by simp [hall a ha])
  rcases hrs : devices.filter (fun x => strContains x.device_type "MediaRenderer") with
    _ | ⟨a, _ | ⟨b, tl⟩⟩
  · rw [hrs] at hlen; simp at hlen
  · rw [hrs] at hlen; simp at hlen
  · rw [hrs] at hfil
    simp only [determine_amplifier_device, hrs, hfil]

/-- Witness for C10: two copies of the streamer's renderer descriptor. -/
theorem c10_all_renderers_equal_streamer_witness :
    determine_amplifier_device fetchNone [devA, devA] devA .none = .ok Option.none :=
  c10_all_renderers_equal_streamer fetchNone [devA, devA] devA (by decide) (by decide)

/-- C8: adapter resolution by an explicit type name searches only the
known-implementation list by class name — an unknown name yields the
binding error whatever the bound device's model identifier or the
override table holds, and the outcome is independent of the bound
device and of the override table (model lookup is bypassed). -/
theorem c8_explicit_type_bypasses_model (known_s known_a : List AdapterClass)
    (overrides_s overrides_a : List (String × AdapterClass))
    (sdev adev : Device) (t : String)
    (hs : ∀ c ∈ known_s, c.className ≠ t)
    (ha : ∀ c ∈ known_a, c.className ≠ t) :
    determine_streamer_class known_s overrides_s sdev (some t)
      = .error (.vibin ("Could not find Vibin implementation for requested streamer type: " ++ t))
    ∧ determine_amplifier_class known_a overrides_a adev (some t)
      = .error (.vibin ("Could not find Vibin implementation for requested amplifier type: " ++ t))
    ∧ ∀ (d2 : Device) (ov2 : List (String × AdapterClass)),
        determine_streamer_class known_s ov2 d2 (some t)
          = determine_streamer_class known_s overrides_s sdev (some t) := by
  have hfs : known_s.find? (fun c => c.className == t) = Option.none :=
    List.find?_eq_none.mpr (fun c hc => by simp [hs c hc])
  have hfa : known_a.find? (fun c => c.className == t) = Option.none :=
    List.find?_eq_none.mpr (fun c hc => by simp [ha c hc])
  refine ⟨?_, ?_, fun d2 ov2 => ?_⟩
  · simp only [determine_streamer_class, hfs]
  · simp only [determine_amplifier_class, hfa]
  · simp only [determine_streamer_class]

/-- Witness for C8 with singleton registries and type name "Unknown". -/
theorem c8_explicit_type_bypasses_model_witness :
    determine_streamer_class [⟨"CXNv2", "CXNv2"⟩] [] devA (some "Unknown")
      = .error (.vibin "Could not find Vibin implementation for requested streamer type: Unknown")
    ∧ determine_amplifier_class [⟨"StreamMagic", "StreamMagic"⟩] [] devA (some "Unknown")
      = .error (.vibin "Could not find Vibin implementation for requested amplifier type: Unknown") := by
  have h := c8_explicit_type_bypasses_model [⟨"CXNv2", "CXNv2"⟩]
    [⟨"StreamMagic", "StreamMagic"⟩] [] [] devA devA "Unknown" (by decide) (by decide)
  exact ⟨h.1, h.2.1⟩

/-- C9 (counterexample): two runs over the same snapshot and the same hint
but different network conditions (probe raises `Timeout` in one,
a plain connection error in the other) resolve differently — resolution
is not a function of (snapshot, hint) alone. -/
theorem c9_counterexample :
    determine_streamer_device probeTO fetchNone [devB] (.name "myhost")
      ≠ determine_streamer_device probeConn fetchNone [devB] (.name "myhost") :=
  fun h => Except.noConfusion h

/-- C9 (amended): resolution is a pure function of the snapshot, the hint,
and the responses of the network collaborators — runs whose probe and
description-fetch oracles agree pointwise yield the same result, and with
no hint the result does not depend on the network at all. -/
theorem c9_resolution_determinism (devices : List Device) (hint : Hint)
    (probe probe2 : String → ProbeResult)
    (fetch fetch2 : String → Except Unit Device)
    (hp : ∀ x, probe x = probe2 x) (hf : ∀ x, fetch x = fetch2 x) :
    determine_streamer_device probe fetch devices hint
      = determine_streamer_device probe2 fetch2 devices hint
    ∧ ∀ (p3 : String → ProbeResult) (f3 : String → Except Unit Device),
        determine_streamer_device probe fetch devices Hint.none
          = determine_streamer_device p3 f3 devices Hint.none := by
  have hp2 : probe = probe2 := funext hp
  have hf2 : fetch = fetch2 := funext hf
  subst hp2; subst hf2
  exact ⟨rfl, fun p3 f3 => by simp only [determine_streamer_device]⟩

/-- Witness for C9 (amended): with no hint, the resolved device is the
same under the timeout oracle and the connection-error oracle. -/
theorem c9_resolution_determinism_witness :
    determine_streamer_device probeTO fetchNone [devA] Hint.none
      = determine_streamer_device probeConn fetchNone [devA] Hint.none :=
  (c9_resolution_determinism [devA] Hint.none probeTO probeTO fetchNone fetchNone
    (fun _ => rfl) (fun _ => rfl)).2 probeConn fetchNone

end Vibin
